import Mathlib

/-!
Shallow embedding of the data-quality analyzer (`utils/data_quality.py`).

Tables are modelled as lists of typed columns; cells are optional values
(numeric, text or datetime), mirroring the pandas dtypes the analyzer
inspects.  Scores are exact rationals.  The wall clock that the source
samples via `datetime.datetime.now()` is threaded through explicitly as an
integer number of days, and the square root used inside the standard
deviation of the identifier-length consistency check is threaded through as
an abstract function `sq : Q → Q` (its result is clamped by the source, so
no property of it is ever required).
-/

/-- Column dtype, mirroring the pandas dtypes the analyzer distinguishes
(`int64`/`float64`, `object`, `datetime64[ns]`). -/
inductive Dtype where
  | numeric
  | object
  | datetime
  deriving DecidableEq

/-- One cell of a table: either null (`NaN`/`NaT`/`None`) or a typed value.
Datetimes are integer day counts. -/
inductive Cell where
  | null
  | num (q : ℚ)
  | str (s : String)
  | dt (t : ℤ)
  deriving DecidableEq

/-- True on null cells, modelling `pandas.isnull`. -/
def Cell.isNull : Cell → Bool
  | Cell.null => true
  | _ => false

/-- True on numeric cells. -/
def Cell.isNum : Cell → Bool
  | Cell.num _ => true
  | _ => false

/-- A named, typed column of cells. -/
structure Column where
  name : String
  dtype : Dtype
  cells : List Cell
  deriving DecidableEq

/-- A table: an ordered list of columns (`pandas.DataFrame`). -/
structure DataFrame where
  cols : List Column
  deriving DecidableEq

/-- Number of rows (`len(data)`); well-formed frames have every column of
this length. -/
def DataFrame.nrows (df : DataFrame) : ℕ :=
  match df.cols with
  | [] => 0
  | c :: _ => c.cells.length

/-- Models `DataFrame.empty`: true when either axis has length zero. -/
def DataFrame.isEmpty (df : DataFrame) : Bool :=
  df.cols.isEmpty || df.nrows == 0

/-- Models `name in data.columns`. -/
def DataFrame.hasCol (df : DataFrame) (nm : String) : Bool :=
  df.cols.any (fun c => c.name == nm)

/-- Column selection `data[name]` (first column with that name). -/
def DataFrame.col? (df : DataFrame) (nm : String) : Option Column :=
  df.cols.find? (fun c => c.name == nm)

/-- Well-formedness: every column holds one cell per row, which pandas
guarantees by construction. -/
def DataFrame.WF (df : DataFrame) : Prop :=
  ∀ c ∈ df.cols, c.cells.length = df.nrows

instance (df : DataFrame) : Decidable df.WF :=
  List.decidableBAll _ df.cols

/-- ASCII lower-casing of one character, modelling `str.lower`. -/
def lowerChar (c : Char) : Char :=
  if c.isUpper then Char.ofNat (c.toNat + 32) else c

/-- Lower-cased character list of a string. -/
def lowerChars (s : String) : List Char :=
  s.data.map lowerChar

/-- Boolean prefix test on character lists. -/
def listPfx : List Char → List Char → Bool
  | [], _ => true
  | _ :: _, [] => false
  | a :: as, b :: bs => a == b && listPfx as bs

/-- Boolean contiguous-substring test on character lists. -/
def listInfix (pat : List Char) : List Char → Bool
  | [] => pat.isEmpty
  | a :: rest => listPfx pat (a :: rest) || listInfix pat rest

/-- Models `pat in nm.lower()` for a lower-case pattern `pat`. -/
def nameContains (nm : String) (pat : String) : Bool :=
  listInfix pat.data (lowerChars nm)

/-- A character is cased (ASCII model) iff it is a letter. -/
def casedChar (c : Char) : Bool := c.isUpper || c.isLower

/-- Models Python `str.isupper`: some cased character and no lower-case one. -/
def pyIsUpper (s : String) : Bool :=
  s.data.any casedChar && s.data.all (fun c => !c.isLower)

/-- Models Python `str.islower`: some cased character and no upper-case one. -/
def pyIsLower (s : String) : Bool :=
  s.data.any casedChar && s.data.all (fun c => !c.isUpper)

/-- Title-case scan: upper-case only after uncased, lower-case only after
cased characters. -/
def pyIsTitleAux : List Char → Bool → Bool
  | [], _ => true
  | c :: rest, prevCased =>
    if c.isUpper then !prevCased && pyIsTitleAux rest true
    else if c.isLower then prevCased && pyIsTitleAux rest true
    else pyIsTitleAux rest false

/-- Models Python `str.istitle`. -/
def pyIsTitle (s : String) : Bool :=
  s.data.any casedChar && pyIsTitleAux s.data false

/-- Mean of a rational list; `Series.mean` on the lists the analyzer builds.
The zero default mirrors the guards the source places around each use. -/
def meanQ (xs : List ℚ) : ℚ :=
  if xs.length = 0 then 0 else xs.sum / (xs.length : ℚ)

/-- Fraction of elements satisfying `p` (0 on the empty list), modelling
`.mean()` of an elementwise boolean test. -/
def fracB {α : Type} (xs : List α) (p : α → Bool) : ℚ :=
  if xs.length = 0 then 0 else (xs.countP p : ℚ) / (xs.length : ℚ)

/-- Null cells of a column (`data[col].isnull().sum()`). -/
def countNulls (c : Column) : ℕ := c.cells.countP Cell.isNull

/-- Total null count of a frame (`data.isnull().sum().sum()`). -/
def DataFrame.missingCells (df : DataFrame) : ℕ :=
  (df.cols.map countNulls).sum

/-- Models `_calculate_completeness`: share of non-null cells over
`data.size`, as a percentage. -/
def calculate_completeness (df : DataFrame) : ℚ :=
  if df.isEmpty then 0
  else if df.nrows * df.cols.length = 0 then 0
  else 100 * (1 - (df.missingCells : ℚ) / ((df.nrows * df.cols.length : ℕ) : ℚ))

/-- Non-null cells of a column (`dropna()`). -/
def nonNullCells (c : Column) : List Cell :=
  c.cells.filter (fun x => !x.isNull)

/-- String payloads of a column, in order. -/
def strCells (c : Column) : List String :=
  c.cells.filterMap (fun x =>
    match x with
    | Cell.str s => some s
    | _ => none)

/-- Consistency check for numeric columns: penalise non-numeric entries.
On genuinely numeric columns the count is zero and no score is emitted,
matching the source. -/
def numericNonNumScore (c : Column) : List ℚ :=
  if 0 < c.cells.countP (fun x => !x.isNull && !x.isNum) then
    [100 * (1 - (c.cells.countP (fun x => !x.isNull && !x.isNum) : ℚ) / (c.cells.length : ℚ))]
  else []

/-- Largest of the upper/lower/title case fractions over the string values
of a column; `.str` methods yield null on non-strings, which `.mean()`
skips, so the denominator is the string-cell count. -/
def caseMaxFrac (c : Column) : ℚ :=
  max (fracB (strCells c) pyIsUpper)
    (max (fracB (strCells c) pyIsLower) (fracB (strCells c) pyIsTitle))

/-- Consistency check for object columns: score the dominant case pattern
when it covers more than half of the values. -/
def caseScore (c : Column) : List ℚ :=
  if 0 < (nonNullCells c).length then
    if 1 / 2 < caseMaxFrac c then [100 * caseMaxFrac c] else []
  else []

/-- Generic consistency scores of one column (all-null columns are
skipped). -/
def colGenericScores (c : Column) : List ℚ :=
  if c.cells.all Cell.isNull then []
  else
    (if c.dtype = Dtype.numeric then numericNonNumScore c else []) ++
      (if c.dtype = Dtype.object then caseScore c else [])

/-- String rendering of a cell, modelling `astype(str)` on non-null
values; identifier columns are object-typed in practice, where this is the
identity. -/
def cellAsStr : Cell → String
  | Cell.str s => s
  | Cell.num q => toString q
  | Cell.dt t => toString t
  | Cell.null => "nan"

/-- Sample variance (`ddof=1`, the pandas default) of a rational list. -/
def sampleVarQ (xs : List ℚ) : ℚ :=
  (xs.map (fun x => (x - meanQ xs) ^ 2)).sum / ((xs.length : ℚ) - 1)

/-- Lengths of the string renderings of the non-null values of a column
(`astype(str).str.len()`). -/
def idLens (c : Column) : List ℚ :=
  ((nonNullCells c).map cellAsStr).map (fun s => (s.data.length : ℚ))

/-- Identifier-length consistency check: `100 * (1 - std/mean)` over the
lengths of the non-null identifiers, clamped to [0, 100].  The score is
skipped exactly when the source computes `NaN`: a single value (`std` with
`ddof=1`) or an all-empty identifier list (`0/0`). -/
def idLengthScores (sq : ℚ → ℚ) (c : Column) : List ℚ :=
  if 0 < (idLens c).length then
    if 2 ≤ (idLens c).length ∧ 0 < meanQ (idLens c) then
      [max 0 (min 100 (100 * (1 - sq (sampleVarQ (idLens c)) / meanQ (idLens c))))]
    else []
  else []

/-- The dataset-specific identifier-format consistency checks. -/
def consistencySpecific (sq : ℚ → ℚ) (dataType : String) (df : DataFrame) : List ℚ :=
  if dataType = "Products" then
    match df.col? "ProductID" with
    | some c => idLengthScores sq c
    | none => []
  else if dataType = "Locations" then
    match df.col? "LocationID" with
    | some c => idLengthScores sq c
    | none => []
  else []

/-- All consistency scores collected for one frame: the generic per-column
pass followed by the dataset-specific identifier checks. -/
def consistencyScores (sq : ℚ → ℚ) (dataType : String) (df : DataFrame) : List ℚ :=
  (df.cols.map colGenericScores).flatten ++ consistencySpecific sq dataType df

/-- Models `_calculate_consistency`: mean of the collected scores, default
95 when no check was applicable, 0 on empty frames. -/
def calculate_consistency (sq : ℚ → ℚ) (dataType : String) (df : DataFrame) : ℚ :=
  if df.isEmpty then 0
  else if consistencyScores sq dataType df = [] then 95
  else meanQ (consistencyScores sq dataType df)

/-- Categorical validity check: fraction of values inside the allow-list or
null, over all rows (`(isin(valid) | isna()).mean()`). -/
def catScore (c : Column) (valid : List String) : List ℚ :=
  if c.dtype = Dtype.object then
    [100 * fracB c.cells (fun x =>
      match x with
      | Cell.null => true
      | Cell.str s => valid.contains s
      | _ => false)]
  else []

/-- Future-date test against the current time: null cells compare false. -/
def isFutureAt (now : ℤ) : Cell → Bool
  | Cell.dt t => decide (now < t)
  | _ => false

/-- The date/time-named columns the generic validity pass examines. -/
def dateCols (df : DataFrame) : List Column :=
  df.cols.filter (fun c => nameContains c.name "date" || nameContains c.name "time")

/-- The generic validity pass: future-date fractions of the datetime-typed,
non-forward-looking date columns. -/
def validityGeneric (now : ℤ) (df : DataFrame) : List ℚ :=
  (dateCols df).filterMap (fun c =>
    if c.dtype = Dtype.datetime then
      if nameContains c.name "future" || nameContains c.name "forecast" then none
      else some (100 * (1 - fracB c.cells (isFutureAt now)))
    else none)

/-- The dataset-specific allow-list validity checks. -/
def validitySpecific (dataType : String) (df : DataFrame) : List ℚ :=
  if dataType = "Products" then
    (match df.col? "ProductCategory" with
     | some c => catScore c ["RAW", "WIP", "FG", "SPARE", "SERVICE"]
     | none => []) ++
      (match df.col? "UnitOfMeasure" with
       | some c => catScore c ["EA", "KG", "L", "M", "PC", "CS"]
       | none => [])
  else if dataType = "Locations" then
    match df.col? "LocationType" with
    | some c => catScore c ["PLANT", "DC", "WAREHOUSE", "STORE", "SUPPLIER", "CUSTOMER"]
    | none => []
  else []

/-- All validity scores collected for one frame. -/
def validityScores (now : ℤ) (dataType : String) (df : DataFrame) : List ℚ :=
  validityGeneric now df ++ validitySpecific dataType df

/-- Models `_calculate_validity`: mean of the collected scores, default 90
when no check was applicable, 0 on empty frames. -/
def calculate_validity (now : ℤ) (dataType : String) (df : DataFrame) : ℚ :=
  if df.isEmpty then 0
  else if validityScores now dataType df = [] then 90
  else meanQ (validityScores now dataType df)

/-- The fixed key-field lookup of `_get_key_fields`. -/
def keyMapping : List (String × List String) :=
  [("Products", ["ProductID"]), ("Locations", ["LocationID"]),
   ("Customers", ["CustomerID"]), ("Suppliers", ["SupplierID"]),
   ("Time Profiles", ["TimeProfileID"]), ("Resource Plans", ["ResourceID"])]

/-- Models `_get_key_fields`: the mapped keys filtered to columns present
in the frame, or for unmapped types the first column whose name contains
"id", "code" or "key". -/
def get_key_fields (dataType : String) (df : DataFrame) : List String :=
  match keyMapping.lookup dataType with
  | some keys => keys.filter (fun k => df.hasCol k)
  | none =>
    ((df.cols.filter (fun c =>
        nameContains c.name "id" || nameContains c.name "code" ||
          nameContains c.name "key")).map Column.name).take 1

/-- The key-field projection of row `i` (`data[key_fields]`). -/
def keyTuple (df : DataFrame) (keys : List String) (i : ℕ) : List Cell :=
  keys.map (fun k =>
    match df.col? k with
    | some c => c.cells.getD i Cell.null
    | none => Cell.null)

/-- All key-field rows of the frame, in order. -/
def keyTuples (df : DataFrame) (keys : List String) : List (List Cell) :=
  (List.range df.nrows).map (keyTuple df keys)

/-- Models `_calculate_uniqueness`: 98 when no key fields were identified,
90 when they are not all present, else 100 times the share of distinct
key combinations (`drop_duplicates`). -/
def calculate_uniqueness (dataType : String) (df : DataFrame) : ℚ :=
  if df.isEmpty then 0
  else if get_key_fields dataType df = [] then 98
  else if (get_key_fields dataType df).all (fun k => df.hasCol k) then
    if df.nrows = 0 then 0
    else 100 * (((keyTuples df (get_key_fields dataType df)).dedup.length : ℚ) / (df.nrows : ℚ))
  else 90

/-- The update-timestamp column name patterns of `_calculate_timeliness`. -/
def tsNamePats : List String := ["update", "modified", "change", "timestamp"]

/-- Recent-update test: value at or after `now - 90` days; null cells
compare false. -/
def isRecentAt (now : ℤ) : Cell → Bool
  | Cell.dt t => decide (now - 90 ≤ t)
  | _ => false

/-- The candidate timestamp columns, in frame order. -/
def tsCols (df : DataFrame) : List Column :=
  df.cols.filter (fun c => tsNamePats.any (fun p => nameContains c.name p))

/-- Models `_calculate_timeliness`: default 85 without a usable timestamp
column, else 100 times the share of rows updated in the last 90 days. -/
def calculate_timeliness (now : ℤ) (df : DataFrame) : ℚ :=
  if df.isEmpty then 0
  else
    match tsCols df with
    | [] => 85
    | c :: _ =>
      if c.dtype ≠ Dtype.datetime then 85
      else 100 * fracB c.cells (isRecentAt now)

/-- Floor of a rational, via Euclidean division of numerator by the
positive denominator (kernel-reducible). -/
def ratFloor (q : ℚ) : ℤ := Int.ediv q.num q.den

/-- Linear-interpolation quantile of an ascending list (the pandas
default). -/
def quantileSorted (xs : List ℚ) (q : ℚ) : ℚ :=
  let h : ℚ := q * ((xs.length : ℚ) - 1)
  let i : ℕ := (ratFloor h).toNat
  let lo := xs.getD i 0
  let hi := xs.getD (i + 1) lo
  lo + (h - (i : ℚ)) * (hi - lo)

/-- `Series.quantile`: sort, then interpolate. -/
def pyQuantile (xs : List ℚ) (q : ℚ) : ℚ :=
  quantileSorted (List.insertionSort (fun a b : ℚ => a ≤ b) xs) q

/-- Numeric payloads of a column (`dropna()` on a numeric column). -/
def numCells (c : Column) : List ℚ :=
  c.cells.filterMap (fun x =>
    match x with
    | Cell.num q => some q
    | _ => none)

/-- Outlier test against the 5-IQR band of a value population. -/
def isExtremeOutlier (nn : List ℚ) (x : ℚ) : Bool :=
  decide (x < pyQuantile nn (1 / 4) - 5 * (pyQuantile nn (3 / 4) - pyQuantile nn (1 / 4))) ||
    decide (pyQuantile nn (3 / 4) + 5 * (pyQuantile nn (3 / 4) - pyQuantile nn (1 / 4)) < x)

/-- Accuracy checks of one numeric Products column: non-negativity over
all rows, and extreme outliers (beyond 5 IQRs from the quartiles) over the
non-null values. -/
def numericColScores (c : Column) : List ℚ :=
  [100 * (1 - fracB c.cells (fun x =>
    match x with
    | Cell.num q => decide (q < 0)
    | _ => false))] ++
    (if 0 < (numCells c).length then
      [100 * (1 - fracB (numCells c) (isExtremeOutlier (numCells c)))]
    else [])

/-- Range check for a coordinate column: fraction of values outside
`[-bound, bound]`, over all rows. -/
def coordScore (c : Column) (bound : ℚ) : List ℚ :=
  if c.dtype = Dtype.numeric then
    [100 * (1 - fracB c.cells (fun x =>
      match x with
      | Cell.num q => decide (q < -bound) || decide (bound < q)
      | _ => false))]
  else []

/-- The dataset-specific accuracy checks of `_calculate_accuracy`. -/
def accuracyChecks (dataType : String) (df : DataFrame) : List ℚ :=
  if dataType = "Products" then
    (["Weight", "Length", "Width", "Height", "Volume"].map (fun nm =>
      match df.col? nm with
      | some c => if c.dtype = Dtype.numeric then numericColScores c else []
      | none => [])).flatten
  else if dataType = "Locations" then
    if df.hasCol "Latitude" && df.hasCol "Longitude" then
      (match df.col? "Latitude" with
       | some c => coordScore c 90
       | none => []) ++
        (match df.col? "Longitude" with
         | some c => coordScore c 180
         | none => [])
    else []
  else []

/-- Models `_calculate_accuracy`: mean of the dataset-specific checks, or
when none apply the estimate `0.4 * completeness + 0.3 * consistency +
0.3 * validity` capped at 95. -/
def calculate_accuracy (sq : ℚ → ℚ) (now : ℤ) (dataType : String) (df : DataFrame) : ℚ :=
  if df.isEmpty then 0
  else if accuracyChecks dataType df = [] then
    min 95 (0.4 * calculate_completeness df + 0.3 * calculate_consistency sq dataType df +
      0.3 * calculate_validity now dataType df)
  else meanQ (accuracyChecks dataType df)

/-- One reported issue: field, description and severity, mirroring the
`{"field", "issue", "impact"}` dictionaries of the source. -/
structure Issue where
  field : String
  issue : String
  impact : String
  deriving DecidableEq

/-- The per-dataset health report: the six dimension percentages plus the
ordered issue list. -/
structure Metrics where
  completeness : ℚ
  consistency : ℚ
  validity : ℚ
  uniqueness : ℚ
  timeliness : ℚ
  accuracy : ℚ
  issues : List Issue
  deriving DecidableEq

/-- Round-half-even to the nearest integer, modelling Python float
formatting of exact values. -/
def roundHalfEven (q : ℚ) : ℤ :=
  if q - (ratFloor q : ℚ) < 1 / 2 then ratFloor q
  else if 1 / 2 < q - (ratFloor q : ℚ) then ratFloor q + 1
  else if ratFloor q % 2 = 0 then ratFloor q else ratFloor q + 1

/-- One-decimal rendering of a non-negative rational, modelling the
`{value:.1f}` format of the missing-value percentage. -/
def fmt1 (q : ℚ) : String :=
  let n := roundHalfEven (10 * q)
  toString (Int.ediv n 10) ++ "." ++ toString (Int.emod n 10)

/-- The missing-value percentage of a column, over `len(data)` rows. -/
def nullPct (df : DataFrame) (nulls : ℕ) : ℚ :=
  ((nulls : ℚ) / (df.nrows : ℚ)) * 100

/-- The issue reported for one column with `nulls` missing values: the
description states the percentage, the severity is High above a 20 percent
null rate and Medium otherwise. -/
def missingIssue (df : DataFrame) (p : String × ℕ) : Issue :=
  { field := p.1,
    issue := "Missing values (" ++ fmt1 (nullPct df p.2) ++ "%)",
    impact := if 20 < nullPct df p.2 then "High" else "Medium" }

/-- Missing-value issues: collected only when overall completeness is
below 95, for columns with more than 5 percent nulls, in descending order
of null count. -/
def completenessIssues (df : DataFrame) : List Issue :=
  if calculate_completeness df < 95 then
    (List.insertionSort (fun a b : String × ℕ => b.2 ≤ a.2)
        ((df.cols.map (fun c => (c.name, countNulls c))).filter (fun p => 0 < p.2))).filterMap
      (fun p => if 5 < nullPct df p.2 then some (missingIssue df p) else none)
  else []

/-- Duplicate-key issue, emitted when uniqueness is below 100. -/
def uniquenessIssues (dataType : String) (df : DataFrame) : List Issue :=
  if calculate_uniqueness dataType df < 100 then
    [{ field := "Key fields", issue := "Duplicate records detected",
       impact := if calculate_uniqueness dataType df < 90 then "High" else "Medium" }]
  else []

/-- Stale-data issue, emitted when timeliness is below 80. -/
def timelinessIssues (now : ℤ) (df : DataFrame) : List Issue :=
  if calculate_timeliness now df < 80 then
    [{ field := "Last updated", issue := "Many records not recently updated",
       impact := "Medium" }]
  else []

/-- Models `analyze_data_health_for_type`: the six dimension scores plus
the collected issues. -/
def analyze_data_health_for_type (sq : ℚ → ℚ) (now : ℤ) (dataType : String)
    (df : DataFrame) : Metrics :=
  { completeness := calculate_completeness df,
    consistency := calculate_consistency sq dataType df,
    validity := calculate_validity now dataType df,
    uniqueness := calculate_uniqueness dataType df,
    timeliness := calculate_timeliness now df,
    accuracy := calculate_accuracy sq now dataType df,
    issues := completenessIssues df ++ uniquenessIssues dataType df ++
      timelinessIssues now df }

/-- The degenerate report for a missing or empty dataset. -/
def noDataMetrics : Metrics :=
  { completeness := 0, consistency := 0, validity := 0, uniqueness := 0,
    timeliness := 0, accuracy := 0,
    issues := [{ field := "all", issue := "No data available", impact := "High" }] }

/-- The report produced for one mapping entry: a full analysis for a
well-formed non-empty table, the degenerate report otherwise. -/
def healthEntry (sq : ℚ → ℚ) (now : ℤ) (p : String × Option DataFrame) : Metrics :=
  match p.2 with
  | some df =>
    if df.isEmpty then noDataMetrics else analyze_data_health_for_type sq now p.1 df
  | none => noDataMetrics

/-- Models `analyze_data_health` over the input mapping; an absent or
malformed table is the `none` case. -/
def analyze_data_health (sq : ℚ → ℚ) (now : ℤ)
    (master : List (String × Option DataFrame)) : List (String × Metrics) :=
  master.map (fun p => (p.1, healthEntry sq now p))

/-- The weighted 0-10 combination of the six dimension percentages used by
`calculate_quality_scores`. -/
def weightedScore (m : Metrics) : ℚ :=
  m.completeness / 10 * 0.25 + m.consistency / 10 * 0.2 + m.validity / 10 * 0.2 +
    m.uniqueness / 10 * 0.15 + m.timeliness / 10 * 0.1 + m.accuracy / 10 * 0.1

/-- The aggregate score of one dataset: the weighted combination capped at
10. -/
def aggregateScore (m : Metrics) : ℚ := min (weightedScore m) 10

/-- The aggregate score produced for one mapping entry: zero for a missing
or empty table. -/
def scoreEntry (sq : ℚ → ℚ) (now : ℤ) (p : String × Option DataFrame) : ℚ :=
  match p.2 with
  | some df =>
    if df.isEmpty then 0 else aggregateScore (analyze_data_health_for_type sq now p.1 df)
  | none => 0

/-- Models `calculate_quality_scores`: aggregate score per dataset, zero
for missing or empty datasets. -/
def calculate_quality_scores (sq : ℚ → ℚ) (now : ℤ)
    (master : List (String × Option DataFrame)) : List (String × ℚ) :=
  master.map (fun p => (p.1, scoreEntry sq now p))

/-! ### Claim-reading models

Definitions in this block follow the wording of spec sentences rather than
the source; they exist only to compare a claimed behaviour against the
embedded code. -/

/-- Key-field selection as the uniqueness claim words it: the per-type
lookup is NOT filtered by presence in the table, so a mapped type always
claims its mapped key fields. -/
def get_key_fields_claimed (dataType : String) (df : DataFrame) : List String :=
  match keyMapping.lookup dataType with
  | some keys => keys
  | none =>
    ((df.cols.filter (fun c =>
        nameContains c.name "id" || nameContains c.name "code" ||
          nameContains c.name "key")).map Column.name).take 1

/-- Uniqueness as the claim words it: 98 when no key fields are found, 90
when the key fields are not all present in the table, else the distinct
share. -/
def calculate_uniqueness_claimed (dataType : String) (df : DataFrame) : ℚ :=
  if df.isEmpty then 0
  else if get_key_fields_claimed dataType df = [] then 98
  else if (get_key_fields_claimed dataType df).all (fun k => df.hasCol k) then
    if df.nrows = 0 then 0
    else 100 * (((keyTuples df (get_key_fields_claimed dataType df)).dedup.length : ℚ) /
      (df.nrows : ℚ))
  else 90

/-- One cell list is obtained from another by replacing some cells with
nulls: pointwise, each cell is unchanged or nulled out. -/
def cellsNulledFrom : List Cell → List Cell → Bool
  | [], [] => true
  | a :: as, b :: bs => (b == a || b == Cell.null) && cellsNulledFrom as bs
  | _, _ => false

/-- One column list is obtained from another by replacing some cells with
nulls, all else (names, dtypes, shapes) equal. -/
def colsNulledFrom : List Column → List Column → Bool
  | [], [] => true
  | c :: cs, d :: ds =>
    (d.name == c.name) && (d.dtype == c.dtype) && cellsNulledFrom c.cells d.cells &&
      colsNulledFrom cs ds
  | _, _ => false

/-- Timeliness as the null-handling claim words it: rows whose timestamp
is null are excluded from the denominator of the recent-update fraction. -/
def calculate_timeliness_claimed (now : ℤ) (df : DataFrame) : ℚ :=
  if df.isEmpty then 0
  else
    match tsCols df with
    | [] => 85
    | c :: _ =>
      if c.dtype ≠ Dtype.datetime then 85
      else 100 * fracB (nonNullCells c) (isRecentAt now)

/-! ### Concrete frames used by witnesses and counterexamples -/

/-- Trivial stand-in for the abstract square root in concrete runs. -/
def sqZero : ℚ → ℚ := fun _ => 0

def colA : Column :=
  { name := "CustomerID", dtype := Dtype.object,
    cells := [Cell.str "C1", Cell.str "C2", Cell.str "C1"] }

def dfA : DataFrame := { cols := [colA] }

/-- A frame with zero rows and zero columns. -/
def dfE : DataFrame := { cols := [] }

/-- A small input mapping: one healthy table, one absent dataset, one
empty table. -/
def masterW : List (String × Option DataFrame) :=
  [("Customers", some dfA), ("Legacy", none), ("Suppliers", some dfE)]

/-- A Products table that lacks the mapped ProductID key column. -/
def dfNoKey : DataFrame :=
  { cols := [{ name := "Surname", dtype := Dtype.object, cells := [Cell.str "A"] }] }

/-- Ten customers with a single duplicated identifier. -/
def dfDup : DataFrame :=
  { cols := [{ name := "CustomerID", dtype := Dtype.object,
               cells := [Cell.str "C0", Cell.str "C1", Cell.str "C2", Cell.str "C3",
                 Cell.str "C4", Cell.str "C5", Cell.str "C6", Cell.str "C7",
                 Cell.str "C8", Cell.str "C0"] }] }

/-- Ten rows, two columns, one null in column A: column A has a 10 percent
null rate while overall completeness is exactly 95. -/
def dfSparse : DataFrame :=
  { cols := [{ name := "A", dtype := Dtype.object,
               cells := Cell.null :: List.replicate 9 (Cell.str "a") },
             { name := "B", dtype := Dtype.object,
               cells := List.replicate 10 (Cell.str "a") }] }

/-- A column of ten cells, three of them null. -/
def colHoles : Column :=
  { name := "A", dtype := Dtype.object,
    cells := Cell.null :: Cell.null :: Cell.null :: List.replicate 7 (Cell.str "a") }

/-- Ten rows, one column, three nulls: completeness 70, null rate 30. -/
def dfHoles : DataFrame := { cols := [colHoles] }

/-- An update-timestamp column where exactly 3 of 10 values are recent at
time 100 (threshold 10). -/
def colStamps : Column :=
  { name := "UpdatedAt", dtype := Dtype.datetime,
    cells := List.replicate 3 (Cell.dt 50) ++ List.replicate 7 (Cell.dt 0) }

def dfStamps : DataFrame := { cols := [colStamps] }

/-- A timestamp column with one recent value and one null. -/
def colHalfNull : Column :=
  { name := "UpdatedAt", dtype := Dtype.datetime, cells := [Cell.dt 50, Cell.null] }

/-- Two rows: one recent timestamp and one null. -/
def dfHalfNull : DataFrame := { cols := [colHalfNull] }

/-- A two-cell numeric column and its copy with one value nulled out. -/
def dfNums : DataFrame :=
  { cols := [{ name := "W", dtype := Dtype.numeric, cells := [Cell.num 1, Cell.num 2] }] }

def dfNumsNulled : DataFrame :=
  { cols := [{ name := "W", dtype := Dtype.numeric, cells := [Cell.num 1, Cell.null] }] }

/-- A single-row timestamp table whose analysis depends on the clock. -/
def dfClock : DataFrame :=
  { cols := [{ name := "UpdatedAt", dtype := Dtype.datetime, cells := [Cell.dt 50] }] }

def masterClock : List (String × Option DataFrame) := [("Customers", some dfClock)]

/-- The dimension scores of the aggregate-formula example in the spec. -/
def exampleMetrics : Metrics :=
  { completeness := 80, consistency := 90, validity := 90, uniqueness := 95,
    timeliness := 70, accuracy := 85, issues := [] }


/-! ### Basic bounds on means and fractions -/

theorem sum_le_len_mul (xs : List ℚ) (b : ℚ) (h : ∀ x ∈ xs, x ≤ b) :
    xs.sum ≤ (xs.length : ℚ) * b := by
  induction xs with
  | nil => simp
  | cons a t ih =>
    have ha := h a (List.mem_cons_self a t)
    have ht := ih (fun x hx => h x (List.mem_cons_of_mem a hx))
    simp only [List.sum_cons, List.length_cons]
    push_cast
    linarith

theorem len_mul_le_sum (xs : List ℚ) (b : ℚ) (h : ∀ x ∈ xs, b ≤ x) :
    (xs.length : ℚ) * b ≤ xs.sum := by
  induction xs with
  | nil => simp
  | cons a t ih =>
    have ha := h a (List.mem_cons_self a t)
    have ht := ih (fun x hx => h x (List.mem_cons_of_mem a hx))
    simp only [List.sum_cons, List.length_cons]
    push_cast
    linarith

theorem meanQ_bounds {xs : List ℚ} {a b : ℚ} (hne : xs ≠ [])
    (h : ∀ x ∈ xs, a ≤ x ∧ x ≤ b) : a ≤ meanQ xs ∧ meanQ xs ≤ b := by
  have hl : xs.length ≠ 0 := fun h0 => hne (List.length_eq_zero.mp h0)
  have hlq : 0 < (xs.length : ℚ) := by
    have : 0 < xs.length := Nat.pos_of_ne_zero hl
    exact_mod_cast this
  unfold meanQ
  rw [if_neg hl]
  constructor
  · rw [le_div_iff hlq]
    have := len_mul_le_sum xs a (fun x hx => (h x hx).1)
    linarith
  · rw [div_le_iff hlq]
    have := sum_le_len_mul xs b (fun x hx => (h x hx).2)
    linarith

theorem fracB_nonneg {α : Type} (xs : List α) (p : α → Bool) : 0 ≤ fracB xs p := by
  unfold fracB
  split
  · exact le_refl 0
  · exact div_nonneg (by positivity) (by positivity)

theorem fracB_le_one {α : Type} (xs : List α) (p : α → Bool) : fracB xs p ≤ 1 := by
  unfold fracB
  split
  · norm_num
  · rename_i h
    have hl : 0 < (xs.length : ℚ) := by
      have := Nat.pos_of_ne_zero h
      exact_mod_cast this
    rw [div_le_one hl]
    exact_mod_cast List.countP_le_length p

theorem hundred_frac_bounds {f : ℚ} (h0 : 0 ≤ f) (h1 : f ≤ 1) :
    0 ≤ 100 * (1 - f) ∧ 100 * (1 - f) ≤ 100 := by
  constructor <;> nlinarith

theorem hundred_fracB_bounds {α : Type} (xs : List α) (p : α → Bool) :
    0 ≤ 100 * (1 - fracB xs p) ∧ 100 * (1 - fracB xs p) ≤ 100 :=
  hundred_frac_bounds (fracB_nonneg xs p) (fracB_le_one xs p)

/-! ### Range of every collected dimension sub-score -/

theorem numericNonNumScore_bounds (c : Column) :
    ∀ x ∈ numericNonNumScore c, 0 ≤ x ∧ x ≤ 100 := by
  intro x hx
  unfold numericNonNumScore at hx
  split at hx
  · rename_i hpos
    rw [List.mem_singleton] at hx
    subst hx
    have hle : c.cells.countP (fun x => !x.isNull && !x.isNum) ≤ c.cells.length :=
      List.countP_le_length _
    have hlen : (0 : ℚ) < (c.cells.length : ℚ) := by
      have : 0 < c.cells.length := lt_of_lt_of_le hpos hle
      exact_mod_cast this
    have h0 : (0 : ℚ) ≤ (c.cells.countP (fun x => !x.isNull && !x.isNum) : ℚ) /
        (c.cells.length : ℚ) := div_nonneg (by positivity) (by positivity)
    have h1 : (c.cells.countP (fun x => !x.isNull && !x.isNum) : ℚ) /
        (c.cells.length : ℚ) ≤ 1 := by
      rw [div_le_one hlen]
      exact_mod_cast hle
    exact hundred_frac_bounds h0 h1
  · simp at hx

theorem caseMaxFrac_bounds (c : Column) : 0 ≤ caseMaxFrac c ∧ caseMaxFrac c ≤ 1 := by
  unfold caseMaxFrac
  constructor
  · exact le_trans (fracB_nonneg _ _) (le_max_left _ _)
  · exact max_le (fracB_le_one _ _) (max_le (fracB_le_one _ _) (fracB_le_one _ _))

theorem caseScore_bounds (c : Column) : ∀ x ∈ caseScore c, 0 ≤ x ∧ x ≤ 100 := by
  intro x hx
  unfold caseScore at hx
  split at hx
  · split at hx
    · rw [List.mem_singleton] at hx
      subst hx
      obtain ⟨h0, h1⟩ := caseMaxFrac_bounds c
      constructor <;> nlinarith
    · simp at hx
  · simp at hx

theorem colGenericScores_bounds (c : Column) :
    ∀ x ∈ colGenericScores c, 0 ≤ x ∧ x ≤ 100 := by
  intro x hx
  unfold colGenericScores at hx
  split at hx
  · simp at hx
  · rw [List.mem_append] at hx
    rcases hx with hx | hx
    · split at hx
      · exact numericNonNumScore_bounds c x hx
      · simp at hx
    · split at hx
      · exact caseScore_bounds c x hx
      · simp at hx

theorem idLengthScores_bounds (sq : ℚ → ℚ) (c : Column) :
    ∀ x ∈ idLengthScores sq c, 0 ≤ x ∧ x ≤ 100 := by
  intro x hx
  unfold idLengthScores at hx
  split at hx
  · split at hx
    · rw [List.mem_singleton] at hx
      subst hx
      refine ⟨le_max_left 0 _, max_le (by norm_num) (min_le_left 100 _)⟩
    · simp at hx
  · simp at hx

theorem consistencySpecific_bounds (sq : ℚ → ℚ) (dataType : String) (df : DataFrame) :
    ∀ x ∈ consistencySpecific sq dataType df, 0 ≤ x ∧ x ≤ 100 := by
  intro x hx
  unfold consistencySpecific at hx
  split at hx
  · split at hx
    · rename_i c _
      exact idLengthScores_bounds sq c x hx
    · simp at hx
  · split at hx
    · split at hx
      · rename_i c _
        exact idLengthScores_bounds sq c x hx
      · simp at hx
    · simp at hx

theorem consistencyScores_bounds (sq : ℚ → ℚ) (dataType : String) (df : DataFrame) :
    ∀ x ∈ consistencyScores sq dataType df, 0 ≤ x ∧ x ≤ 100 := by
  intro x hx
  unfold consistencyScores at hx
  rw [List.mem_append] at hx
  rcases hx with hx | hx
  · rw [List.mem_flatten] at hx
    obtain ⟨l, hl, hxl⟩ := hx
    rw [List.mem_map] at hl
    obtain ⟨c, _, hc⟩ := hl
    subst hc
    exact colGenericScores_bounds c x hxl
  · exact consistencySpecific_bounds sq dataType df x hx

theorem catScore_bounds (c : Column) (valid : List String) :
    ∀ x ∈ catScore c valid, 0 ≤ x ∧ x ≤ 100 := by
  intro x hx
  unfold catScore at hx
  split at hx
  · rw [List.mem_singleton] at hx
    subst hx
    have h0 := fracB_nonneg c.cells (fun x =>
      match x with
      | Cell.null => true
      | Cell.str s => valid.contains s
      | _ => false)
    have h1 := fracB_le_one c.cells (fun x =>
      match x with
      | Cell.null => true
      | Cell.str s => valid.contains s
      | _ => false)
    constructor
    · exact mul_nonneg (by norm_num) h0
    · have h2 := mul_le_mul_of_nonneg_left h1 (by norm_num : (0 : ℚ) ≤ 100)
      simpa using h2
  · simp at hx

theorem validityGeneric_bounds (now : ℤ) (df : DataFrame) :
    ∀ x ∈ validityGeneric now df, 0 ≤ x ∧ x ≤ 100 := by
  intro x hx
  unfold validityGeneric at hx
  rw [List.mem_filterMap] at hx
  obtain ⟨c, _, hc⟩ := hx
  split at hc
  · split at hc
    · simp at hc
    · rw [Option.some_inj] at hc
      subst hc
      exact hundred_fracB_bounds c.cells (isFutureAt now)
  · simp at hc

theorem validitySpecific_bounds (dataType : String) (df : DataFrame) :
    ∀ x ∈ validitySpecific dataType df, 0 ≤ x ∧ x ≤ 100 := by
  intro x hx
  unfold validitySpecific at hx
  split at hx
  · rw [List.mem_append] at hx
    rcases hx with hx | hx
    · split at hx
      · rename_i c _
        exact catScore_bounds c _ x hx
      · simp at hx
    · split at hx
      · rename_i c _
        exact catScore_bounds c _ x hx
      · simp at hx
  · split at hx
    · split at hx
      · rename_i c _
        exact catScore_bounds c _ x hx
      · simp at hx
    · simp at hx

theorem validityScores_bounds (now : ℤ) (dataType : String) (df : DataFrame) :
    ∀ x ∈ validityScores now dataType df, 0 ≤ x ∧ x ≤ 100 := by
  intro x hx
  unfold validityScores at hx
  rw [List.mem_append] at hx
  rcases hx with hx | hx
  · exact validityGeneric_bounds now df x hx
  · exact validitySpecific_bounds dataType df x hx

theorem numericColScores_bounds (c : Column) :
    ∀ x ∈ numericColScores c, 0 ≤ x ∧ x ≤ 100 := by
  intro x hx
  unfold numericColScores at hx
  rw [List.mem_append] at hx
  rcases hx with hx | hx
  · rw [List.mem_singleton] at hx
    subst hx
    exact hundred_fracB_bounds c.cells _
  · split at hx
    · rw [List.mem_singleton] at hx
      subst hx
      exact hundred_fracB_bounds (numCells c) _
    · simp at hx

theorem coordScore_bounds (c : Column) (bound : ℚ) :
    ∀ x ∈ coordScore c bound, 0 ≤ x ∧ x ≤ 100 := by
  intro x hx
  unfold coordScore at hx
  split at hx
  · rw [List.mem_singleton] at hx
    subst hx
    exact hundred_fracB_bounds c.cells _
  · simp at hx

theorem accuracyChecks_bounds (dataType : String) (df : DataFrame) :
    ∀ x ∈ accuracyChecks dataType df, 0 ≤ x ∧ x ≤ 100 := by
  intro x hx
  unfold accuracyChecks at hx
  split at hx
  · rw [List.mem_flatten] at hx
    obtain ⟨l, hl, hxl⟩ := hx
    rw [List.mem_map] at hl
    obtain ⟨nm, _, hnm⟩ := hl
    revert hxl
    rw [← hnm]
    split
    · split
      · rename_i c _ _
        exact fun hxl => numericColScores_bounds c x hxl
      · intro hxl
        simp at hxl
    · intro hxl
      simp at hxl
  · split at hx
    · split at hx
      · rw [List.mem_append] at hx
        rcases hx with hx | hx
        · split at hx
          · rename_i c _
            exact coordScore_bounds c 90 x hx
          · simp at hx
        · split at hx
          · rename_i c _
            exact coordScore_bounds c 180 x hx
          · simp at hx
      · simp at hx
    · simp at hx

/-! ### Range of each dimension score -/

theorem sum_map_const_nat (l : List Column) (n : ℕ) :
    (l.map (fun _ => n)).sum = l.length * n := by
  induction l with
  | nil => simp
  | cons c t ih => simp [ih, Nat.succ_mul, Nat.add_comm]

theorem missing_le_total (df : DataFrame) (hwf : df.WF) :
    df.missingCells ≤ df.nrows * df.cols.length := by
  unfold DataFrame.missingCells
  have h1 : (df.cols.map countNulls).sum ≤ (df.cols.map (fun _ => df.nrows)).sum := by
    apply List.sum_le_sum
    intro c hc
    rw [← hwf c hc]
    exact List.countP_le_length _
  rw [sum_map_const_nat] at h1
  rw [Nat.mul_comm df.nrows df.cols.length]
  exact h1

theorem calculate_completeness_bounds (df : DataFrame) (hwf : df.WF) :
    0 ≤ calculate_completeness df ∧ calculate_completeness df ≤ 100 := by
  unfold calculate_completeness
  split
  · norm_num
  · split
    · norm_num
    · rename_i hne ht
      have htpos : 0 < df.nrows * df.cols.length := Nat.pos_of_ne_zero ht
      have htq : (0 : ℚ) < ((df.nrows * df.cols.length : ℕ) : ℚ) := by exact_mod_cast htpos
      have hmle : df.missingCells ≤ df.nrows * df.cols.length := missing_le_total df hwf
      have h0 : (0 : ℚ) ≤ (df.missingCells : ℚ) / ((df.nrows * df.cols.length : ℕ) : ℚ) :=
        div_nonneg (by positivity) (le_of_lt htq)
      have h1 : (df.missingCells : ℚ) / ((df.nrows * df.cols.length : ℕ) : ℚ) ≤ 1 := by
        rw [div_le_one htq]
        exact_mod_cast hmle
      constructor <;> nlinarith

theorem calculate_consistency_bounds (sq : ℚ → ℚ) (dataType : String) (df : DataFrame) :
    0 ≤ calculate_consistency sq dataType df ∧ calculate_consistency sq dataType df ≤ 100 := by
  unfold calculate_consistency
  split
  · norm_num
  · split
    · norm_num
    · rename_i hne
      have hb := meanQ_bounds hne (consistencyScores_bounds sq dataType df)
      exact ⟨hb.1, hb.2⟩

theorem calculate_validity_bounds (now : ℤ) (dataType : String) (df : DataFrame) :
    0 ≤ calculate_validity now dataType df ∧ calculate_validity now dataType df ≤ 100 := by
  unfold calculate_validity
  split
  · norm_num
  · split
    · norm_num
    · rename_i hne
      exact meanQ_bounds hne (validityScores_bounds now dataType df)

theorem keyTuples_length (df : DataFrame) (keys : List String) :
    (keyTuples df keys).length = df.nrows := by
  unfold keyTuples
  rw [List.length_map, List.length_range]

theorem calculate_uniqueness_bounds (dataType : String) (df : DataFrame) :
    0 ≤ calculate_uniqueness dataType df ∧ calculate_uniqueness dataType df ≤ 100 := by
  unfold calculate_uniqueness
  split
  · norm_num
  · split
    · norm_num
    · split
      · split
        · norm_num
        · rename_i hn
          have hnq : (0 : ℚ) < (df.nrows : ℚ) := by
            have := Nat.pos_of_ne_zero hn
            exact_mod_cast this
          have hd : (keyTuples df (get_key_fields dataType df)).dedup.length ≤ df.nrows := by
            have h1 := (List.dedup_sublist (keyTuples df (get_key_fields dataType df))).length_le
            rw [keyTuples_length] at h1
            exact h1
          have h0 : (0 : ℚ) ≤
              ((keyTuples df (get_key_fields dataType df)).dedup.length : ℚ) / (df.nrows : ℚ) :=
            div_nonneg (by positivity) (le_of_lt hnq)
          have h1 : ((keyTuples df (get_key_fields dataType df)).dedup.length : ℚ) /
              (df.nrows : ℚ) ≤ 1 := by
            rw [div_le_one hnq]
            exact_mod_cast hd
          constructor
          · exact mul_nonneg (by norm_num) h0
          · have h2 := mul_le_mul_of_nonneg_left h1 (by norm_num : (0 : ℚ) ≤ 100)
            simpa using h2
      · norm_num

theorem calculate_timeliness_bounds (now : ℤ) (df : DataFrame) :
    0 ≤ calculate_timeliness now df ∧ calculate_timeliness now df ≤ 100 := by
  unfold calculate_timeliness
  split
  · norm_num
  · split
    · norm_num
    · rename_i c rest heq
      split
      · norm_num
      · have h0 := fracB_nonneg c.cells (isRecentAt now)
        have h1 := fracB_le_one c.cells (isRecentAt now)
        constructor
        · exact mul_nonneg (by norm_num) h0
        · have h2 := mul_le_mul_of_nonneg_left h1 (by norm_num : (0 : ℚ) ≤ 100)
          simpa using h2

theorem calculate_accuracy_bounds (sq : ℚ → ℚ) (now : ℤ) (dataType : String)
    (df : DataFrame) (hwf : df.WF) :
    0 ≤ calculate_accuracy sq now dataType df ∧ calculate_accuracy sq now dataType df ≤ 100 := by
  unfold calculate_accuracy
  split
  · norm_num
  · split
    · have hc := calculate_completeness_bounds df hwf
      have hk := calculate_consistency_bounds sq dataType df
      have hv := calculate_validity_bounds now dataType df
      constructor
      · apply le_min
        · norm_num
        · nlinarith [hc.1, hk.1, hv.1]
      · calc min 95 (0.4 * calculate_completeness df +
              0.3 * calculate_consistency sq dataType df +
              0.3 * calculate_validity now dataType df) ≤ 95 := min_le_left _ _
          _ ≤ 100 := by norm_num
    · rename_i hne
      exact meanQ_bounds hne (accuracyChecks_bounds dataType df)

/-! ### Bounds on whole reports and aggregate scores -/

theorem analyze_for_type_bounds (sq : ℚ → ℚ) (now : ℤ) (dataType : String)
    (df : DataFrame) (hwf : df.WF) :
    (0 ≤ (analyze_data_health_for_type sq now dataType df).completeness ∧
      (analyze_data_health_for_type sq now dataType df).completeness ≤ 100) ∧
    (0 ≤ (analyze_data_health_for_type sq now dataType df).consistency ∧
      (analyze_data_health_for_type sq now dataType df).consistency ≤ 100) ∧
    (0 ≤ (analyze_data_health_for_type sq now dataType df).validity ∧
      (analyze_data_health_for_type sq now dataType df).validity ≤ 100) ∧
    (0 ≤ (analyze_data_health_for_type sq now dataType df).uniqueness ∧
      (analyze_data_health_for_type sq now dataType df).uniqueness ≤ 100) ∧
    (0 ≤ (analyze_data_health_for_type sq now dataType df).timeliness ∧
      (analyze_data_health_for_type sq now dataType df).timeliness ≤ 100) ∧
    (0 ≤ (analyze_data_health_for_type sq now dataType df).accuracy ∧
      (analyze_data_health_for_type sq now dataType df).accuracy ≤ 100) :=
  ⟨calculate_completeness_bounds df hwf, calculate_consistency_bounds sq dataType df,
    calculate_validity_bounds now dataType df, calculate_uniqueness_bounds dataType df,
    calculate_timeliness_bounds now df, calculate_accuracy_bounds sq now dataType df hwf⟩

theorem aggregateScore_bounds (m : Metrics)
    (hc : 0 ≤ m.completeness) (hk : 0 ≤ m.consistency) (hv : 0 ≤ m.validity)
    (hu : 0 ≤ m.uniqueness) (ht : 0 ≤ m.timeliness) (ha : 0 ≤ m.accuracy) :
    0 ≤ aggregateScore m ∧ aggregateScore m ≤ 10 := by
  unfold aggregateScore weightedScore
  constructor
  · apply le_min _ (by norm_num)
    linarith
  · exact min_le_right _ _

/-- Range of every dimension of the report produced for one entry. -/
theorem healthEntry_bounds (sq : ℚ → ℚ) (now : ℤ) (p : String × Option DataFrame)
    (hwf : ∀ df : DataFrame, p.2 = some df → df.WF) :
    (0 ≤ (healthEntry sq now p).completeness ∧ (healthEntry sq now p).completeness ≤ 100) ∧
    (0 ≤ (healthEntry sq now p).consistency ∧ (healthEntry sq now p).consistency ≤ 100) ∧
    (0 ≤ (healthEntry sq now p).validity ∧ (healthEntry sq now p).validity ≤ 100) ∧
    (0 ≤ (healthEntry sq now p).uniqueness ∧ (healthEntry sq now p).uniqueness ≤ 100) ∧
    (0 ≤ (healthEntry sq now p).timeliness ∧ (healthEntry sq now p).timeliness ≤ 100) ∧
    (0 ≤ (healthEntry sq now p).accuracy ∧ (healthEntry sq now p).accuracy ≤ 100) := by
  unfold healthEntry
  split
  · rename_i df hdf
    split
    · unfold noDataMetrics
      norm_num
    · exact analyze_for_type_bounds sq now p.1 df (hwf df hdf)
  · unfold noDataMetrics
    norm_num

theorem scoreEntry_bounds (sq : ℚ → ℚ) (now : ℤ) (p : String × Option DataFrame)
    (hwf : ∀ df : DataFrame, p.2 = some df → df.WF) :
    0 ≤ scoreEntry sq now p ∧ scoreEntry sq now p ≤ 10 := by
  unfold scoreEntry
  split
  · rename_i df hdf
    split
    · norm_num
    · have hb := analyze_for_type_bounds sq now p.1 df (hwf df hdf)
      exact aggregateScore_bounds _ hb.1.1 hb.2.1.1 hb.2.2.1.1 hb.2.2.2.1.1
        hb.2.2.2.2.1.1 hb.2.2.2.2.2.1
  · norm_num

/-- C1: for every input mapping of dataset-type names to tables, each of
the six dimension scores (completeness, consistency, validity, uniqueness,
timeliness, accuracy) returned by `analyze_data_health` lies in [0, 100],
and every aggregate score returned by `calculate_quality_scores` lies in
[0, 10]. -/
theorem C1_dimension_and_aggregate_ranges (sq : ℚ → ℚ) (now : ℤ)
    (master : List (String × Option DataFrame))
    (hwf : ∀ p ∈ master, ∀ df : DataFrame, p.2 = some df → df.WF) :
    (∀ p ∈ analyze_data_health sq now master,
      (0 ≤ p.2.completeness ∧ p.2.completeness ≤ 100) ∧
      (0 ≤ p.2.consistency ∧ p.2.consistency ≤ 100) ∧
      (0 ≤ p.2.validity ∧ p.2.validity ≤ 100) ∧
      (0 ≤ p.2.uniqueness ∧ p.2.uniqueness ≤ 100) ∧
      (0 ≤ p.2.timeliness ∧ p.2.timeliness ≤ 100) ∧
      (0 ≤ p.2.accuracy ∧ p.2.accuracy ≤ 100)) ∧
    (∀ p ∈ calculate_quality_scores sq now master, 0 ≤ p.2 ∧ p.2 ≤ 10) := by
  constructor
  · intro p hp
    unfold analyze_data_health at hp
    rw [List.mem_map] at hp
    obtain ⟨q, hq, hpq⟩ := hp
    subst hpq
    exact healthEntry_bounds sq now q (hwf q hq)
  · intro p hp
    unfold calculate_quality_scores at hp
    rw [List.mem_map] at hp
    obtain ⟨q, hq, hpq⟩ := hp
    subst hpq
    exact scoreEntry_bounds sq now q (hwf q hq)

/-- Concrete instance of C1 on a three-entry mapping (healthy, absent and
empty datasets). -/
theorem C1_dimension_and_aggregate_ranges_witness :
    (∀ p ∈ analyze_data_health sqZero 100 masterW,
      (0 ≤ p.2.completeness ∧ p.2.completeness ≤ 100) ∧
      (0 ≤ p.2.consistency ∧ p.2.consistency ≤ 100) ∧
      (0 ≤ p.2.validity ∧ p.2.validity ≤ 100) ∧
      (0 ≤ p.2.uniqueness ∧ p.2.uniqueness ≤ 100) ∧
      (0 ≤ p.2.timeliness ∧ p.2.timeliness ≤ 100) ∧
      (0 ≤ p.2.accuracy ∧ p.2.accuracy ≤ 100)) ∧
    (∀ p ∈ calculate_quality_scores sqZero 100 masterW, 0 ≤ p.2 ∧ p.2 ≤ 10) :=
  C1_dimension_and_aggregate_ranges sqZero 100 masterW (by
    intro p hp df hdf
    simp only [masterW, List.mem_cons, List.not_mem_nil, or_false] at hp
    rcases hp with rfl | rfl | rfl
    · injection hdf with h
      subst h
      with_unfolding_all decide
    · exact Option.noConfusion hdf
    · injection hdf with h
      subst h
      with_unfolding_all decide)

/-! ### C2: the aggregate-score formula -/

/-- C2 counterexample: the worked example of the spec is arithmetically
wrong.  Dimension scores (80, 90, 90, 95, 70, 85) combine under the stated
weights to 8.575, not 8.425. -/
theorem C2_example_value_counterexample :
    aggregateScore exampleMetrics = 8.575 ∧ (8.575 : ℚ) ≠ 8.425 := by
  constructor
  · with_unfolding_all rfl
  · norm_num

/-- C2 (amended): for every non-empty dataset, the aggregate score equals
the weighted sum of the six dimension percentages each divided by 10
(weights 0.25, 0.20, 0.20, 0.15, 0.10, 0.10) capped at 10, and the worked
example (80, 90, 90, 95, 70, 85) evaluates to 8.575. -/
theorem C2_aggregate_formula (sq : ℚ → ℚ) (now : ℤ)
    (master : List (String × Option DataFrame)) (i : ℕ) (nm : String) (df : DataFrame)
    (hmi : master[i]? = some (nm, some df)) (hne : df.isEmpty = false) :
    (calculate_quality_scores sq now master)[i]? = some (nm,
      min ((analyze_data_health_for_type sq now nm df).completeness / 10 * 0.25 +
        (analyze_data_health_for_type sq now nm df).consistency / 10 * 0.2 +
        (analyze_data_health_for_type sq now nm df).validity / 10 * 0.2 +
        (analyze_data_health_for_type sq now nm df).uniqueness / 10 * 0.15 +
        (analyze_data_health_for_type sq now nm df).timeliness / 10 * 0.1 +
        (analyze_data_health_for_type sq now nm df).accuracy / 10 * 0.1) 10) ∧
    aggregateScore exampleMetrics = 8.575 := by
  constructor
  · unfold calculate_quality_scores
    rw [List.getElem?_map, hmi]
    have hs : scoreEntry sq now (nm, some df) =
        aggregateScore (analyze_data_health_for_type sq now nm df) := by
      unfold scoreEntry
      simp [hne]
    simp only [Option.map_some']
    rw [hs]
    rfl
  · with_unfolding_all rfl

/-- Concrete instance of C2 on the healthy first entry of the sample
mapping. -/
theorem C2_aggregate_formula_witness :
    masterW[0]? = some ("Customers", some dfA) ∧
    ((calculate_quality_scores sqZero 100 masterW)[0]? = some ("Customers",
      min ((analyze_data_health_for_type sqZero 100 "Customers" dfA).completeness / 10 * 0.25 +
        (analyze_data_health_for_type sqZero 100 "Customers" dfA).consistency / 10 * 0.2 +
        (analyze_data_health_for_type sqZero 100 "Customers" dfA).validity / 10 * 0.2 +
        (analyze_data_health_for_type sqZero 100 "Customers" dfA).uniqueness / 10 * 0.15 +
        (analyze_data_health_for_type sqZero 100 "Customers" dfA).timeliness / 10 * 0.1 +
        (analyze_data_health_for_type sqZero 100 "Customers" dfA).accuracy / 10 * 0.1) 10) ∧
      aggregateScore exampleMetrics = 8.575) :=
  ⟨by with_unfolding_all rfl,
    C2_aggregate_formula sqZero 100 masterW 0 "Customers" dfA
      (by with_unfolding_all rfl) (by with_unfolding_all rfl)⟩

/-! ### C3: degenerate datasets -/

/-- C3: a missing or malformed or zero-row dataset reports all six
dimension scores 0 together with exactly the single issue
`{field := "all", issue := "No data available", impact := "High"}`, and
its aggregate score is 0. -/
theorem C3_empty_dataset_report (sq : ℚ → ℚ) (now : ℤ)
    (master : List (String × Option DataFrame)) (i : ℕ) (nm : String)
    (v : Option DataFrame) (hmi : master[i]? = some (nm, v))
    (hempty : v = none ∨ ∃ df : DataFrame, v = some df ∧ df.isEmpty = true) :
    (analyze_data_health sq now master)[i]? = some (nm,
      { completeness := 0, consistency := 0, validity := 0, uniqueness := 0,
        timeliness := 0, accuracy := 0,
        issues := [{ field := "all", issue := "No data available", impact := "High" }] }) ∧
    (calculate_quality_scores sq now master)[i]? = some (nm, 0) := by
  have hh : healthEntry sq now (nm, v) = noDataMetrics := by
    rcases hempty with rfl | ⟨df, rfl, he⟩
    · rfl
    · unfold healthEntry
      simp [he]
  have hs : scoreEntry sq now (nm, v) = 0 := by
    rcases hempty with rfl | ⟨df, rfl, he⟩
    · rfl
    · unfold scoreEntry
      simp [he]
  constructor
  · unfold analyze_data_health
    rw [List.getElem?_map, hmi]
    simp only [Option.map_some']
    rw [hh]
    rfl
  · unfold calculate_quality_scores
    rw [List.getElem?_map, hmi]
    simp only [Option.map_some']
    rw [hs]

/-- Concrete instance of C3 on the absent second entry of the sample
mapping. -/
theorem C3_empty_dataset_report_witness :
    masterW[1]? = some ("Legacy", (none : Option DataFrame)) ∧
    ((analyze_data_health sqZero 100 masterW)[1]? = some ("Legacy",
      { completeness := 0, consistency := 0, validity := 0, uniqueness := 0,
        timeliness := 0, accuracy := 0,
        issues := [{ field := "all", issue := "No data available", impact := "High" }] }) ∧
      (calculate_quality_scores sqZero 100 masterW)[1]? = some ("Legacy", 0)) :=
  ⟨by with_unfolding_all rfl,
    C3_empty_dataset_report sqZero 100 masterW 1 "Legacy" none
      (by with_unfolding_all rfl) (Or.inl rfl)⟩

/-! ### C4: the uniqueness rule -/

theorem get_key_fields_present (dataType : String) (df : DataFrame) :
    ∀ k ∈ get_key_fields dataType df, df.hasCol k = true := by
  intro k hk
  unfold get_key_fields at hk
  split at hk
  · exact (List.mem_filter.mp hk).2
  · have hk2 := List.take_subset 1 _ hk
    rw [List.mem_map] at hk2
    obtain ⟨c, hc, rfl⟩ := hk2
    have hcc := List.mem_of_mem_filter hc
    unfold DataFrame.hasCol
    rw [List.any_eq_true]
    exact ⟨c, hcc, by simp⟩

theorem nrows_ne_zero_of_nonempty (df : DataFrame) (hne : df.isEmpty = false) :
    df.nrows ≠ 0 := by
  unfold DataFrame.isEmpty at hne
  rw [Bool.or_eq_false_iff] at hne
  intro h0
  rw [h0] at hne
  simp at hne

/-- C4 counterexample: on a non-empty Products table that lacks the mapped
ProductID column, the code scores uniqueness 98 (the lookup result is
filtered by presence, leaving no key fields), while the claim's rule (key
fields taken from the lookup unfiltered, not all present in the table)
predicts 90. -/
theorem C4_missing_key_counterexample :
    calculate_uniqueness "Products" dfNoKey = 98 ∧
    calculate_uniqueness_claimed "Products" dfNoKey = 90 ∧ (98 : ℚ) ≠ 90 :=
  ⟨by with_unfolding_all rfl, by with_unfolding_all rfl, by norm_num⟩

/-- C4 (amended): for every non-empty dataset the key fields are the
per-type lookup result filtered to columns present in the table (or, for
unmapped types, the first id/code/key-named column); key fields, when
found, are therefore always present, so the not-all-present default 90 is
unreachable; with no key fields the score is 98, and otherwise it is
100 times the distinct key-combination share, which is 100 exactly when
the key tuples have no duplicate, and a single-key table of n rows with
n - 1 distinct keys scores 100 * (n - 1) / n. -/
theorem C4_uniqueness_rule (dataType : String) (df : DataFrame)
    (hne : df.isEmpty = false) :
    (get_key_fields dataType df = [] → calculate_uniqueness dataType df = 98) ∧
    (get_key_fields dataType df ≠ [] →
      (∀ k ∈ get_key_fields dataType df, df.hasCol k = true) ∧
      calculate_uniqueness dataType df =
        100 * (((keyTuples df (get_key_fields dataType df)).dedup.length : ℚ) /
          (df.nrows : ℚ)) ∧
      (calculate_uniqueness dataType df = 100 ↔
        (keyTuples df (get_key_fields dataType df)).Nodup) ∧
      (∀ n : ℕ, df.nrows = n → 0 < n →
        (keyTuples df (get_key_fields dataType df)).dedup.length = n - 1 →
        calculate_uniqueness dataType df = 100 * ((n : ℚ) - 1) / (n : ℚ))) := by
  have hnr : df.nrows ≠ 0 := nrows_ne_zero_of_nonempty df hne
  have hnq : (0 : ℚ) < (df.nrows : ℚ) := by
    have := Nat.pos_of_ne_zero hnr
    exact_mod_cast this
  constructor
  · intro hkeys
    unfold calculate_uniqueness
    simp [hne, hkeys]
  · intro hkeys
    have hall : (get_key_fields dataType df).all (fun k => df.hasCol k) = true := by
      rw [List.all_eq_true]
      exact get_key_fields_present dataType df
    have heq : calculate_uniqueness dataType df =
        100 * (((keyTuples df (get_key_fields dataType df)).dedup.length : ℚ) /
          (df.nrows : ℚ)) := by
      unfold calculate_uniqueness
      simp [hne, hkeys, hall, hnr]
    refine ⟨get_key_fields_present dataType df, heq, ?_, ?_⟩
    · rw [heq]
      have hlen : (keyTuples df (get_key_fields dataType df)).length = df.nrows :=
        keyTuples_length df _
      constructor
      · intro h100
        have hdn : ((keyTuples df (get_key_fields dataType df)).dedup.length : ℚ) /
            (df.nrows : ℚ) = 1 := by
          have h := mul_left_cancel₀ (by norm_num : (100 : ℚ) ≠ 0) (by linarith : (100 : ℚ) *
            (((keyTuples df (get_key_fields dataType df)).dedup.length : ℚ) /
              (df.nrows : ℚ)) = 100 * 1)
          exact h
        have hd : (keyTuples df (get_key_fields dataType df)).dedup.length = df.nrows := by
          have := (div_eq_one_iff_eq (ne_of_gt hnq)).mp hdn
          exact_mod_cast this
        have hsub := List.dedup_sublist (keyTuples df (get_key_fields dataType df))
        have hde : (keyTuples df (get_key_fields dataType df)).dedup =
            keyTuples df (get_key_fields dataType df) :=
          hsub.eq_of_length (by rw [hd, hlen])
        rw [← hde]
        exact List.nodup_dedup _
      · intro hnd
        rw [List.dedup_eq_self.mpr hnd, hlen]
        rw [div_self (ne_of_gt hnq)]
        norm_num
    · intro n hn hpos hd
      rw [heq, hd, hn]
      rw [Nat.cast_sub (by omega : 1 ≤ n)]
      push_cast
      ring

/-- Concrete instance of C4 on ten customers with one duplicated
identifier: the key is found and present, and uniqueness is
100 * 9 / 10 = 90. -/
theorem C4_uniqueness_rule_witness :
    dfDup.isEmpty = false ∧ get_key_fields "Customers" dfDup ≠ [] ∧
    ((∀ k ∈ get_key_fields "Customers" dfDup, dfDup.hasCol k = true) ∧
      calculate_uniqueness "Customers" dfDup =
        100 * (((keyTuples dfDup (get_key_fields "Customers" dfDup)).dedup.length : ℚ) /
          (dfDup.nrows : ℚ)) ∧
      (calculate_uniqueness "Customers" dfDup = 100 ↔
        (keyTuples dfDup (get_key_fields "Customers" dfDup)).Nodup) ∧
      (∀ n : ℕ, dfDup.nrows = n → 0 < n →
        (keyTuples dfDup (get_key_fields "Customers" dfDup)).dedup.length = n - 1 →
        calculate_uniqueness "Customers" dfDup = 100 * ((n : ℚ) - 1) / (n : ℚ))) ∧
    calculate_uniqueness "Customers" dfDup = 90 :=
  ⟨by with_unfolding_all rfl, by with_unfolding_all decide,
    (C4_uniqueness_rule "Customers" dfDup (by with_unfolding_all rfl)).2
      (by with_unfolding_all decide),
    by with_unfolding_all rfl⟩


/-! ### C5: missing-value issues -/

/-- C5 counterexample: in a ten-row, two-column table whose column A has a
10 percent null rate, overall completeness is exactly 95, so the issue
scan never runs and no issue for column A is reported, contrary to the
claim. -/
theorem C5_threshold_counterexample :
    (∃ c ∈ dfSparse.cols, c.name = "A" ∧ 5 < nullPct dfSparse (countNulls c)) ∧
    (∀ iss ∈ (analyze_data_health_for_type sqZero 100 "Customers" dfSparse).issues,
      iss.field ≠ "A") := by
  with_unfolding_all decide

/-- C5 (amended): when the overall completeness score is below 95 (only
then does the source scan columns), every column whose null rate exceeds
5 percent yields an issue naming that column, with severity High when the
rate exceeds 20 percent and Medium otherwise, and a description stating
the percentage (the content of `missingIssue`). -/
theorem C5_missing_value_issues (sq : ℚ → ℚ) (now : ℤ) (dataType : String)
    (df : DataFrame) (hcomp : calculate_completeness df < 95)
    (c : Column) (hc : c ∈ df.cols) (hpct : 5 < nullPct df (countNulls c)) :
    missingIssue df (c.name, countNulls c) ∈
      (analyze_data_health_for_type sq now dataType df).issues := by
  have hcount : 0 < countNulls c := by
    by_contra h0
    have hz : countNulls c = 0 := Nat.eq_zero_of_not_pos h0
    rw [hz] at hpct
    unfold nullPct at hpct
    norm_num at hpct
  have hmem : missingIssue df (c.name, countNulls c) ∈ completenessIssues df := by
    unfold completenessIssues
    rw [if_pos hcomp]
    rw [List.mem_filterMap]
    refine ⟨(c.name, countNulls c), ?_, ?_⟩
    · have hperm := List.perm_insertionSort (fun a b : String × ℕ => b.2 ≤ a.2)
        ((df.cols.map (fun c => (c.name, countNulls c))).filter (fun p => 0 < p.2))
      rw [hperm.mem_iff]
      rw [List.mem_filter]
      constructor
      · rw [List.mem_map]
        exact ⟨c, hc, rfl⟩
      · simpa using hcount
    · rw [if_pos hpct]
  unfold analyze_data_health_for_type
  exact List.mem_append_left _ (List.mem_append_left _ hmem)

/-- Concrete instance of C5 on a ten-row column with three nulls:
completeness 70, null rate 30, severity High, description stating
30.0 percent. -/
theorem C5_missing_value_issues_witness :
    calculate_completeness dfHoles < 95 ∧ 5 < nullPct dfHoles (countNulls colHoles) ∧
    { field := "A", issue := "Missing values (30.0%)", impact := "High" } ∈
      (analyze_data_health_for_type sqZero 100 "Customers" dfHoles).issues := by
  refine ⟨by with_unfolding_all decide, by with_unfolding_all decide, ?_⟩
  have h := C5_missing_value_issues sqZero 100 "Customers" dfHoles
    (by with_unfolding_all decide) colHoles (by with_unfolding_all decide)
    (by with_unfolding_all decide)
  have heq : missingIssue dfHoles (colHoles.name, countNulls colHoles) =
      { field := "A", issue := "Missing values (30.0%)", impact := "High" } := by
    with_unfolding_all rfl
  exact heq ▸ h

/-! ### C6: the timeliness rule -/

theorem fracB_eq_div {α : Type} (xs : List α) (p : α → Bool) :
    fracB xs p = ((xs.countP p : ℚ) / (xs.length : ℚ)) := by
  unfold fracB
  split
  · rename_i h
    have hc : xs.countP p = 0 := by
      have := List.countP_le_length p (l := xs)
      omega
    rw [hc, h]
    norm_num
  · rfl

/-- C6: for a non-empty dataset, timeliness defaults to 85 when no column
name contains update/modified/change/timestamp, defaults to 85 when the
first such column is not datetime-typed, and otherwise equals 100 times
the fraction of rows (of that column) whose value is at or after the
90-day threshold; in particular 3 recent values out of 10 give 30. -/
theorem C6_timeliness_rule (now : ℤ) (df : DataFrame) (hne : df.isEmpty = false) :
    (tsCols df = [] → calculate_timeliness now df = 85) ∧
    (∀ c rest, tsCols df = c :: rest → c.dtype ≠ Dtype.datetime →
      calculate_timeliness now df = 85) ∧
    (∀ c rest, tsCols df = c :: rest → c.dtype = Dtype.datetime →
      calculate_timeliness now df =
        100 * ((c.cells.countP (isRecentAt now) : ℚ) / (c.cells.length : ℚ))) ∧
    (∀ c rest, tsCols df = c :: rest → c.dtype = Dtype.datetime →
      c.cells.length = 10 → c.cells.countP (isRecentAt now) = 3 →
      calculate_timeliness now df = 30) := by
  have hformula : ∀ c rest, tsCols df = c :: rest → c.dtype = Dtype.datetime →
      calculate_timeliness now df =
        100 * ((c.cells.countP (isRecentAt now) : ℚ) / (c.cells.length : ℚ)) := by
    intro c rest h hdt
    unfold calculate_timeliness
    rw [hne]
    simp only [Bool.false_eq_true, if_false, h]
    rw [if_neg (by simp [hdt])]
    rw [fracB_eq_div]
  refine ⟨?_, ?_, hformula, ?_⟩
  · intro h
    unfold calculate_timeliness
    rw [hne]
    simp only [Bool.false_eq_true, if_false, h]
  · intro c rest h hdt
    unfold calculate_timeliness
    rw [hne]
    simp only [Bool.false_eq_true, if_false, h]
    rw [if_pos (by simp [hdt])]
  · intro c rest h hdt hlen hcount
    rw [hformula c rest h hdt, hlen, hcount]
    norm_num

/-- Concrete instance of C6: an UpdatedAt table where exactly 3 of 10
rows are within the last 90 days scores timeliness 30. -/
theorem C6_timeliness_rule_witness :
    dfStamps.isEmpty = false ∧ tsCols dfStamps = [colStamps] ∧
    colStamps.dtype = Dtype.datetime ∧ colStamps.cells.length = 10 ∧
    colStamps.cells.countP (isRecentAt 100) = 3 ∧
    calculate_timeliness 100 dfStamps = 30 := by
  refine ⟨by with_unfolding_all rfl, by with_unfolding_all decide, rfl,
    by with_unfolding_all decide, by with_unfolding_all decide, ?_⟩
  exact (C6_timeliness_rule 100 dfStamps (by with_unfolding_all rfl)).2.2.2 colStamps []
    (by with_unfolding_all decide) rfl (by with_unfolding_all decide)
    (by with_unfolding_all decide)

/-! ### C7: null handling in fraction denominators -/

/-- C7 counterexample: on a two-row table with one recent timestamp and
one null, the code computes timeliness 50 (the null row stays in the
denominator and counts as not recent), while the claimed null-excluding
fraction would give 100. -/
theorem C7_null_denominator_counterexample :
    calculate_timeliness 100 dfHalfNull = 50 ∧
    calculate_timeliness_claimed 100 dfHalfNull = 100 ∧ (50 : ℚ) ≠ 100 :=
  ⟨by with_unfolding_all rfl, by with_unfolding_all rfl, by norm_num⟩

/-- C7 (amended): null cells compare false against the thresholds, so the
timeliness and future-date fractions keep null rows in their denominators
(counting them as not recent and as not in the future, respectively),
while completeness counts null cells in the numerator against the total
cell count. -/
theorem C7_null_handling (now : ℤ) (dataType : String) (df : DataFrame) :
    (isRecentAt now Cell.null = false ∧ isFutureAt now Cell.null = false) ∧
    (∀ c rest, tsCols df = c :: rest → c.dtype = Dtype.datetime → df.isEmpty = false →
      calculate_timeliness now df =
        100 * ((c.cells.countP (isRecentAt now) : ℚ) / (c.cells.length : ℚ))) ∧
    (∀ c ∈ dateCols df, c.dtype = Dtype.datetime →
      nameContains c.name "future" = false → nameContains c.name "forecast" = false →
      100 * (1 - (c.cells.countP (isFutureAt now) : ℚ) / (c.cells.length : ℚ)) ∈
        validityScores now dataType df) ∧
    (df.isEmpty = false →
      calculate_completeness df =
        100 * (1 - (df.missingCells : ℚ) / ((df.nrows * df.cols.length : ℕ) : ℚ))) := by
  refine ⟨⟨rfl, rfl⟩, ?_, ?_, ?_⟩
  · intro c rest h hdt hne
    unfold calculate_timeliness
    rw [hne]
    simp only [Bool.false_eq_true, if_false, h]
    rw [if_neg (by simp [hdt])]
    rw [fracB_eq_div]
  · intro c hc hdt hfut hfor
    unfold validityScores
    apply List.mem_append_left
    unfold validityGeneric
    rw [List.mem_filterMap]
    refine ⟨c, hc, ?_⟩
    rw [if_pos hdt]
    rw [if_neg (by simp [hfut, hfor])]
    rw [fracB_eq_div]
  · intro hne
    have hnr : df.nrows ≠ 0 := nrows_ne_zero_of_nonempty df hne
    have hcols : df.cols ≠ [] := by
      intro h0
      unfold DataFrame.isEmpty at hne
      rw [h0] at hne
      simp at hne
    have hlen : df.cols.length ≠ 0 := fun h0 => hcols (List.length_eq_zero.mp h0)
    have htot : df.nrows * df.cols.length ≠ 0 := Nat.mul_ne_zero hnr hlen
    unfold calculate_completeness
    rw [hne]
    simp only [Bool.false_eq_true, if_false]
    rw [if_neg htot]

/-- Concrete instance of C7 on the half-null timestamp table: the
denominator is 2 (both rows) and timeliness is 50. -/
theorem C7_null_handling_witness :
    tsCols dfHalfNull = [colHalfNull] ∧ colHalfNull.dtype = Dtype.datetime ∧
    dfHalfNull.isEmpty = false ∧
    calculate_timeliness 100 dfHalfNull =
      100 * ((colHalfNull.cells.countP (isRecentAt 100) : ℚ) /
        (colHalfNull.cells.length : ℚ)) ∧
    calculate_timeliness 100 dfHalfNull = 50 := by
  refine ⟨by with_unfolding_all decide, rfl, by with_unfolding_all rfl, ?_,
    by with_unfolding_all rfl⟩
  exact (C7_null_handling 100 "Customers" dfHalfNull).2.1 colHalfNull []
    (by with_unfolding_all decide) rfl (by with_unfolding_all rfl)

/-! ### C8: the accuracy fallback estimate -/

/-- C8: on a non-empty dataset where no dataset-specific accuracy check
applies, accuracy equals `0.4 * completeness + 0.3 * consistency +
0.3 * validity` capped at 95; dataset types other than Products and
Locations never have applicable checks. -/
theorem C8_accuracy_estimate (sq : ℚ → ℚ) (now : ℤ) (dataType : String) (df : DataFrame)
    (hne : df.isEmpty = false) (hnochecks : accuracyChecks dataType df = []) :
    calculate_accuracy sq now dataType df =
      min 95 (0.4 * calculate_completeness df + 0.3 * calculate_consistency sq dataType df +
        0.3 * calculate_validity now dataType df) ∧
    (∀ t : String, t ≠ "Products" → t ≠ "Locations" → accuracyChecks t df = []) := by
  constructor
  · unfold calculate_accuracy
    rw [hne]
    simp only [Bool.false_eq_true, if_false]
    rw [if_pos hnochecks]
  · intro t h1 h2
    unfold accuracyChecks
    rw [if_neg h1, if_neg h2]

/-- Concrete instance of C8 on a Customers table: no check applies and the
estimate 0.4 * 100 + 0.3 * 100 + 0.3 * 90 = 97 is capped to 95. -/
theorem C8_accuracy_estimate_witness :
    dfA.isEmpty = false ∧ accuracyChecks "Customers" dfA = [] ∧
    (calculate_accuracy sqZero 100 "Customers" dfA =
      min 95 (0.4 * calculate_completeness dfA +
        0.3 * calculate_consistency sqZero "Customers" dfA +
        0.3 * calculate_validity 100 "Customers" dfA) ∧
      (∀ t : String, t ≠ "Products" → t ≠ "Locations" → accuracyChecks t dfA = [])) ∧
    calculate_accuracy sqZero 100 "Customers" dfA = 95 :=
  ⟨by with_unfolding_all rfl, by with_unfolding_all rfl,
    C8_accuracy_estimate sqZero 100 "Customers" dfA (by with_unfolding_all rfl)
      (by with_unfolding_all rfl),
    by with_unfolding_all rfl⟩

/-! ### C9: completeness is monotone in nulls -/

theorem cellsNulledFrom_length {as bs : List Cell} (h : cellsNulledFrom as bs = true) :
    bs.length = as.length := by
  induction as generalizing bs with
  | nil =>
    cases bs with
    | nil => rfl
    | cons b bs => simp [cellsNulledFrom] at h
  | cons a as ih =>
    cases bs with
    | nil => simp [cellsNulledFrom] at h
    | cons b bs =>
      simp only [cellsNulledFrom, Bool.and_eq_true] at h
      simp [ih h.2]

theorem cellsNulledFrom_count {as bs : List Cell} (h : cellsNulledFrom as bs = true) :
    as.countP Cell.isNull ≤ bs.countP Cell.isNull := by
  induction as generalizing bs with
  | nil => simp
  | cons a as ih =>
    cases bs with
    | nil => simp [cellsNulledFrom] at h
    | cons b bs =>
      simp only [cellsNulledFrom, Bool.and_eq_true, Bool.or_eq_true, beq_iff_eq] at h
      obtain ⟨hb, hrest⟩ := h
      have htail := ih hrest
      rw [List.countP_cons, List.countP_cons]
      rcases hb with rfl | rfl
      · omega
      · have h1 : (if Cell.isNull a = true then 1 else 0) ≤ 1 := by split <;> omega
        have h2 : (if Cell.isNull Cell.null = true then 1 else 0) = 1 := rfl
        omega

theorem colsNulledFrom_spec {cs ds : List Column} (h : colsNulledFrom cs ds = true) :
    ds.length = cs.length ∧ (cs.map countNulls).sum ≤ (ds.map countNulls).sum := by
  induction cs generalizing ds with
  | nil =>
    cases ds with
    | nil => simp
    | cons d ds => simp [colsNulledFrom] at h
  | cons c cs ih =>
    cases ds with
    | nil => simp [colsNulledFrom] at h
    | cons d ds =>
      simp only [colsNulledFrom, Bool.and_eq_true, beq_iff_eq] at h
      obtain ⟨⟨⟨hn, ht⟩, hc⟩, hrest⟩ := h
      obtain ⟨hl, hs⟩ := ih hrest
      refine ⟨by simp [hl], ?_⟩
      simp only [List.map_cons, List.sum_cons]
      have hcnt : countNulls c ≤ countNulls d := cellsNulledFrom_count hc
      omega

theorem colsNulledFrom_nrows {df df' : DataFrame}
    (h : colsNulledFrom df.cols df'.cols = true) : df'.nrows = df.nrows := by
  unfold DataFrame.nrows
  cases hc : df.cols with
  | nil =>
    cases hc' : df'.cols with
    | nil => rfl
    | cons d ds =>
      rw [hc, hc'] at h
      simp [colsNulledFrom] at h
  | cons c cs =>
    cases hc' : df'.cols with
    | nil =>
      rw [hc, hc'] at h
      simp [colsNulledFrom] at h
    | cons d ds =>
      rw [hc, hc'] at h
      simp only [colsNulledFrom, Bool.and_eq_true] at h
      exact cellsNulledFrom_length h.1.2

theorem colsNulledFrom_isEmpty {df df' : DataFrame}
    (h : colsNulledFrom df.cols df'.cols = true) : df'.isEmpty = df.isEmpty := by
  unfold DataFrame.isEmpty
  rw [colsNulledFrom_nrows h]
  cases hc : df.cols with
  | nil =>
    cases hc' : df'.cols with
    | nil => rfl
    | cons d ds =>
      rw [hc, hc'] at h
      simp [colsNulledFrom] at h
  | cons c cs =>
    cases hc' : df'.cols with
    | nil =>
      rw [hc, hc'] at h
      simp [colsNulledFrom] at h
    | cons d ds => rfl

/-- C9: replacing any set of non-null cells of any columns with nulls, all
else equal, never increases the completeness score. -/
theorem C9_completeness_monotone (df df' : DataFrame)
    (h : colsNulledFrom df.cols df'.cols = true) :
    calculate_completeness df' ≤ calculate_completeness df := by
  have hnr := colsNulledFrom_nrows h
  have hsp := colsNulledFrom_spec h
  have hie := colsNulledFrom_isEmpty h
  have hm : df.missingCells ≤ df'.missingCells := hsp.2
  unfold calculate_completeness
  rw [hie, hnr, hsp.1]
  split
  · exact le_refl 0
  · split
    · exact le_refl 0
    · rename_i hne htot
      have ht : (0 : ℚ) < ((df.nrows * df.cols.length : ℕ) : ℚ) := by
        have := Nat.pos_of_ne_zero htot
        exact_mod_cast this
      have hmq : (df.missingCells : ℚ) ≤ (df'.missingCells : ℚ) := by exact_mod_cast hm
      have hinv : (0 : ℚ) ≤ (((df.nrows * df.cols.length : ℕ) : ℚ))⁻¹ :=
        inv_nonneg.mpr (le_of_lt ht)
      have hdiv := mul_le_mul_of_nonneg_right hmq hinv
      rw [← div_eq_mul_inv, ← div_eq_mul_inv] at hdiv
      nlinarith

/-- Concrete instance of C9: nulling one of two numeric cells lowers
completeness from 100 to 50. -/
theorem C9_completeness_monotone_witness :
    colsNulledFrom dfNums.cols dfNumsNulled.cols = true ∧
    calculate_completeness dfNumsNulled ≤ calculate_completeness dfNums ∧
    calculate_completeness dfNums = 100 ∧ calculate_completeness dfNumsNulled = 50 :=
  ⟨by with_unfolding_all rfl,
    C9_completeness_monotone dfNums dfNumsNulled (by with_unfolding_all rfl),
    by with_unfolding_all rfl, by with_unfolding_all rfl⟩

/-! ### C10: determinism and the hidden clock -/

/-- C10 counterexample: the analysis samples the wall clock, so two runs
of the same input at different times disagree; the result is not a
function of the input tables alone. -/
theorem C10_clock_dependence_counterexample :
    analyze_data_health sqZero 100 masterClock ≠ analyze_data_health sqZero 300 masterClock ∧
    calculate_quality_scores sqZero 100 masterClock ≠
      calculate_quality_scores sqZero 300 masterClock := by
  constructor <;> with_unfolding_all decide

theorem validityGeneric_clock_free (now₁ now₂ : ℤ) (df : DataFrame)
    (hnd : ∀ c ∈ df.cols, c.dtype ≠ Dtype.datetime) :
    validityGeneric now₁ df = validityGeneric now₂ df := by
  unfold validityGeneric
  apply List.filterMap_congr
  intro c hc
  have hcc : c ∈ df.cols := List.mem_of_mem_filter hc
  rw [if_neg (hnd c hcc), if_neg (hnd c hcc)]

theorem calculate_validity_clock_free (now₁ now₂ : ℤ) (dataType : String) (df : DataFrame)
    (hnd : ∀ c ∈ df.cols, c.dtype ≠ Dtype.datetime) :
    calculate_validity now₁ dataType df = calculate_validity now₂ dataType df := by
  have hs : validityScores now₁ dataType df = validityScores now₂ dataType df := by
    unfold validityScores
    rw [validityGeneric_clock_free now₁ now₂ df hnd]
  unfold calculate_validity
  rw [hs]

theorem calculate_timeliness_clock_free (now₁ now₂ : ℤ) (df : DataFrame)
    (hnd : ∀ c ∈ df.cols, c.dtype ≠ Dtype.datetime) :
    calculate_timeliness now₁ df = calculate_timeliness now₂ df := by
  unfold calculate_timeliness
  cases h : tsCols df with
  | nil => rfl
  | cons c rest =>
    have hcc : c ∈ df.cols := by
      have hmem : c ∈ tsCols df := by
        rw [h]
        exact List.mem_cons_self c rest
      exact List.mem_of_mem_filter hmem
    show (if df.isEmpty = true then (0 : ℚ)
        else if c.dtype ≠ Dtype.datetime then 85 else 100 * fracB c.cells (isRecentAt now₁)) =
      (if df.isEmpty = true then (0 : ℚ)
        else if c.dtype ≠ Dtype.datetime then 85 else 100 * fracB c.cells (isRecentAt now₂))
    simp only [if_pos (hnd c hcc)]

theorem calculate_accuracy_clock_free (sq : ℚ → ℚ) (now₁ now₂ : ℤ) (dataType : String)
    (df : DataFrame) (hnd : ∀ c ∈ df.cols, c.dtype ≠ Dtype.datetime) :
    calculate_accuracy sq now₁ dataType df = calculate_accuracy sq now₂ dataType df := by
  unfold calculate_accuracy
  rw [calculate_validity_clock_free now₁ now₂ dataType df hnd]

theorem analyze_for_type_clock_free (sq : ℚ → ℚ) (now₁ now₂ : ℤ) (dataType : String)
    (df : DataFrame) (hnd : ∀ c ∈ df.cols, c.dtype ≠ Dtype.datetime) :
    analyze_data_health_for_type sq now₁ dataType df =
      analyze_data_health_for_type sq now₂ dataType df := by
  unfold analyze_data_health_for_type
  rw [calculate_validity_clock_free now₁ now₂ dataType df hnd,
    calculate_timeliness_clock_free now₁ now₂ df hnd,
    calculate_accuracy_clock_free sq now₁ now₂ dataType df hnd]
  have hti : timelinessIssues now₁ df = timelinessIssues now₂ df := by
    unfold timelinessIssues
    rw [calculate_timeliness_clock_free now₁ now₂ df hnd]
  rw [hti]

/-- C10 (amended): the analysis is a pure, deterministic function of the
input tables and the sampled clock; it has no other hidden state, and on
inputs with no datetime-typed column the clock is irrelevant, so any two
runs yield identical scores and issue lists. -/
theorem C10_determinism (sq : ℚ → ℚ) (now₁ now₂ : ℤ)
    (master : List (String × Option DataFrame))
    (hnodt : ∀ p ∈ master, ∀ df : DataFrame, p.2 = some df →
      ∀ c ∈ df.cols, c.dtype ≠ Dtype.datetime) :
    analyze_data_health sq now₁ master = analyze_data_health sq now₂ master ∧
    calculate_quality_scores sq now₁ master = calculate_quality_scores sq now₂ master := by
  constructor
  · unfold analyze_data_health
    apply List.map_congr_left
    intro p hp
    have hh : healthEntry sq now₁ p = healthEntry sq now₂ p := by
      unfold healthEntry
      cases hd : p.2 with
      | none => rfl
      | some df =>
        have hnd := hnodt p hp df hd
        show (if df.isEmpty = true then noDataMetrics
            else analyze_data_health_for_type sq now₁ p.1 df) =
          (if df.isEmpty = true then noDataMetrics
            else analyze_data_health_for_type sq now₂ p.1 df)
        split
        · rfl
        · exact analyze_for_type_clock_free sq now₁ now₂ p.1 df hnd
    rw [hh]
  · unfold calculate_quality_scores
    apply List.map_congr_left
    intro p hp
    have hh : scoreEntry sq now₁ p = scoreEntry sq now₂ p := by
      unfold scoreEntry
      cases hd : p.2 with
      | none => rfl
      | some df =>
        have hnd := hnodt p hp df hd
        show (if df.isEmpty = true then (0 : ℚ)
            else aggregateScore (analyze_data_health_for_type sq now₁ p.1 df)) =
          (if df.isEmpty = true then (0 : ℚ)
            else aggregateScore (analyze_data_health_for_type sq now₂ p.1 df))
        split
        · rfl
        · rw [analyze_for_type_clock_free sq now₁ now₂ p.1 df hnd]
    rw [hh]

/-- Concrete instance of C10 on the clock-free sample mapping: two runs at
different times agree. -/
theorem C10_determinism_witness :
    analyze_data_health sqZero 100 masterW = analyze_data_health sqZero 300 masterW ∧
    calculate_quality_scores sqZero 100 masterW =
      calculate_quality_scores sqZero 300 masterW :=
  C10_determinism sqZero 100 300 masterW (by
    intro p hp df hdf
    simp only [masterW, List.mem_cons, List.not_mem_nil, or_false] at hp
    rcases hp with rfl | rfl | rfl
    · injection hdf with h
      subst h
      with_unfolding_all decide
    · exact Option.noConfusion hdf
    · injection hdf with h
      subst h
      with_unfolding_all decide)
